import Mathlib

/-!
Shallow embedding of `src/worker.ts` of the dc-cron repository: a scheduled
job dispatcher (Cloudflare-Worker style) that on each cron tick resolves due
jobs, fans out HTTP calls, classifies outcomes, sends webhook alerts for
alert-worthy failures and raises an aggregate error when any job failed.

Effects are made explicit: the nondeterministic environment (HTTP responses,
call durations) is an oracle parameter, wall-clock timestamps are a `now`
parameter, and a tick's observable behaviour (diagnostic log lines,
invocations performed, job results, alert payloads, raised error) is
returned as a `TickOutcome` value.
-/

namespace DcCron

/-- `type Platform = 'worker' | 'web'` -/
inductive Platform
  | worker
  | web
deriving DecidableEq, Repr

/-- `type JobKey = ...` — the eight known job identifiers. -/
inductive JobKey
  | createDailyChronicles
  | processIncompleteChronicles
  | syncChroniclesUpdates
  | syncUserStakes
  | provideLiquidity
  | shieldClean
  | recordDacPerformance
  | healthz
deriving DecidableEq, Repr

/-- The string form of a `JobKey`, as interpolated into log and alert text. -/
def JobKey.name : JobKey → String
  | .createDailyChronicles => "createDailyChronicles"
  | .processIncompleteChronicles => "processIncompleteChronicles"
  | .syncChroniclesUpdates => "syncChroniclesUpdates"
  | .syncUserStakes => "syncUserStakes"
  | .provideLiquidity => "provideLiquidity"
  | .shieldClean => "shieldClean"
  | .recordDacPerformance => "recordDacPerformance"
  | .healthz => "healthz"

/-- `interface Env`. `ENABLED` and `SLACK_WEBHOOK_URL` are `Option` because
the code guards them (`env.ENABLED ?? 'false'`, `env.SLACK_WEBHOOK_URL?`):
`none` models the variable being unset at runtime. -/
structure Env where
  BASE_URL : String
  WEB_URL : String
  INTERNAL_API_KEY : String
  ENABLED : Option String
  SLACK_WEBHOOK_URL : Option String
deriving DecidableEq, Repr

/-- One entry of `JOB_ENDPOINT`: HTTP method and relative path. -/
structure Endpoint where
  method : String
  path : String
deriving DecidableEq, Repr

/-- `const JOB_ENDPOINT: Record<JobKey, { method; path }>` -/
def JOB_ENDPOINT : JobKey → Endpoint
  | .createDailyChronicles => ⟨"POST", "/api/internal/create-daily-chronicles"⟩
  | .processIncompleteChronicles => ⟨"POST", "/api/internal/process-incomplete-chronicles"⟩
  | .syncChroniclesUpdates => ⟨"POST", "/api/internal/sync-chronicles-updates"⟩
  | .syncUserStakes => ⟨"POST", "/api/internal/sync-user-stakes"⟩
  | .provideLiquidity => ⟨"POST", "/api/internal/provide-liquidity"⟩
  | .shieldClean => ⟨"POST", "/api/internal/shield-clean"⟩
  | .recordDacPerformance => ⟨"POST", "/api/internal/record-dac-performance"⟩
  | .healthz => ⟨"GET", "/api/healthz"⟩

/-- `const WORKER_CRON_TO_JOBS: Record<string, JobKey[]>`; a record lookup
on an absent key yields `undefined`, modelled as `none`. -/
def WORKER_CRON_TO_JOBS (cron : String) : Option (List JobKey) :=
  if cron = "0,30 12-23 * * *" then some [.createDailyChronicles]
  else if cron = "15 13-15 * * *" then some [.processIncompleteChronicles]
  else if cron = "*/1 * * * *" then some [.syncChroniclesUpdates, .syncUserStakes, .healthz]
  else if cron = "0 * * * *" then some [.provideLiquidity]
  else if cron = "*/15 * * * *" then some [.shieldClean, .recordDacPerformance]
  else none

/-- `const WEB_CRON_TO_JOBS: Record<string, JobKey[]>` -/
def WEB_CRON_TO_JOBS (cron : String) : Option (List JobKey) :=
  if cron = "0,30 12-23 * * *" then some []
  else if cron = "15 13-15 * * *" then some []
  else if cron = "*/1 * * * *" then some [.healthz]
  else if cron = "0 * * * *" then some []
  else if cron = "*/15 * * * *" then some []
  else none

/-- `baseUrl.replace(/\/+$/, '')`: remove every trailing `/`. -/
def stripTrailingSlashes (s : String) : String :=
  ⟨(s.data.reverse.dropWhile (fun c => c = '/')).reverse⟩

/-- The base URL selected by `fullUrl` for a platform. -/
def baseUrlOf (platform : Platform) (env : Env) : String :=
  match platform with
  | .worker => env.BASE_URL
  | .web => env.WEB_URL

/-- Return value of `fullUrl`. -/
structure FullUrl where
  url : String
  method : String
  baseUrl : String
deriving DecidableEq, Repr

/-- `function fullUrl(platform, env, { method, path })` -/
def fullUrl (platform : Platform) (env : Env) (ep : Endpoint) : FullUrl :=
  let baseUrl := baseUrlOf platform env
  { url := stripTrailingSlashes baseUrl ++ ep.path
    method := ep.method
    baseUrl := baseUrl }

/-- `JobResult = JobResultOk | JobResultErr`, merged into one record: fields
the TypeScript variant leaves `undefined` are `none` (`status` on transport
failure; `error` and `body` on success; `body` also on transport failure). -/
structure JobResult where
  job : JobKey
  ok : Bool
  status : Option Nat
  ms : Nat
  url : String
  baseUrl : String
  error : Option String
  body : Option String
deriving DecidableEq, Repr

/-- `function shouldAlert(jobResult?: JobResult)` -/
def shouldAlert : Option JobResult → Bool
  | none => true
  | some r =>
    if r.status = some 503 ∨ r.status = some 409 then false
    else if r.status = some 524 ∧ r.job = .provideLiquidity then false
    else true

/-- `function slackTextForFailure(opts)` — the alert payload text. -/
def slackTextForFailure (cron : String) (job : JobKey) (url : String)
    (status : Option Nat) (ms : Nat) (baseUrl : String)
    (timestampISO : String) (body : Option String) : String :=
  let statusStr := match status with
    | some s => toString s
    | none => "network error"
  let bodySnippet := match body with
    | some b => if b = "" then "" else "\n• *Body (trimmed)*:\n```\n" ++ b ++ "\n```"
    | none => ""
  ":rotating_light: *Cron job failed* (" ++ cron ++ ")\n" ++
  "• *Job*: " ++ job.name ++ "\n" ++
  "• *Status*: " ++ statusStr ++ "\n" ++
  "• *Duration*: " ++ toString ms ++ "ms\n" ++
  "• *When*: " ++ timestampISO ++ "\n" ++
  "• *URL*: " ++ url ++ "\n" ++
  "• *BASE_URL*: " ++ baseUrl ++
  bodySnippet

/-- An obtained HTTP response: status plus the result of `res.text()`
(`none` when reading the body itself fails; the code falls back to `''`
via `.catch(() => '')`). -/
structure HttpResponse where
  status : Nat
  text : Option String
deriving DecidableEq, Repr

/-- `res.ok`: status in the inclusive range 200–299. -/
def HttpResponse.ok (r : HttpResponse) : Bool :=
  200 ≤ r.status && r.status ≤ 299

/-- Outcome of one `fetch` call: either a response was obtained or the
call failed at transport level (the `catch` branch of `runJob`). -/
inductive FetchOutcome
  | response (res : HttpResponse)
  | transportError (message : String)
deriving DecidableEq, Repr

/-- JavaScript `s.slice(0, n)`: the first `n` characters, or all of `s`
when it is shorter. -/
def jsSlice (s : String) (n : Nat) : String :=
  ⟨s.data.take n⟩

/-- JavaScript `s.startsWith(p)`: `p` is a prefix of `s`. Defined by
structural list recursion so it evaluates by reduction. -/
def startsWith (s p : String) : Bool :=
  p.data.isPrefixOf s.data

/-- The outbound request `runJob` issues: URL, method, and the
`Internal-Authorization` header value when attached. -/
structure OutboundRequest where
  url : String
  method : String
  internalAuth : Option String
deriving DecidableEq, Repr

/-- The request built by `runJob` lines 175–184: URL and method from
`fullUrl`, the auth header spread in only for `/api/internal/` paths. -/
def jobRequest (platform : Platform) (env : Env) (job : JobKey) : OutboundRequest :=
  let f := fullUrl platform env (JOB_ENDPOINT job)
  { url := f.url
    method := f.method
    internalAuth :=
      if startsWith (JOB_ENDPOINT job).path "/api/internal/" then some env.INTERNAL_API_KEY
      else none }

/-- `async function runJob(platform, job, env): Promise<JobResult>`.
The fetch outcome and measured duration are passed in as data; the
function is total — every path returns a `JobResult`, mirroring that the
source never throws. -/
def runJob (platform : Platform) (job : JobKey) (env : Env)
    (outcome : FetchOutcome) (ms : Nat) : JobResult :=
  let f := fullUrl platform env (JOB_ENDPOINT job)
  match outcome with
  | .response res =>
    if !res.ok then
      let trimmed := jsSlice (res.text.getD "") 1500
      { job := job, ok := false, status := some res.status, ms := ms
        url := f.url, baseUrl := f.baseUrl
        error := some ("HTTP " ++ toString res.status), body := some trimmed }
    else
      { job := job, ok := true, status := some res.status, ms := ms
        url := f.url, baseUrl := f.baseUrl, error := none, body := none }
  | .transportError message =>
      { job := job, ok := false, status := none, ms := ms
        url := f.url, baseUrl := f.baseUrl, error := some message, body := none }

/-- Response of the `fetch` request handler. `invocations` records the
jobs the handler runs: the manual-trigger path is commented out in the
source, so the handler performs none. -/
structure FetchResponse where
  status : Nat
  body : String
  invocations : List JobKey
deriving DecidableEq, Repr

/-- The `fetch(req)` handler, over the request's parsed `url.pathname`
and `req.method`. -/
def fetchHandler (pathname : String) (method : String) : FetchResponse :=
  if pathname = "/" ∧ method = "GET" then
    { status := 200, body := "ok", invocations := [] }
  else
    { status := 404, body := "not found", invocations := [] }

/-- `(env.ENABLED ?? 'false') !== 'true'`, negated: the feature gate. -/
def gateOpen (env : Env) : Bool :=
  (env.ENABLED.getD "false") == "true"

/-- `WORKER_CRON_TO_JOBS[ev.cron]` with the `!workerJobs` guard folded in:
an absent entry and an empty entry both behave as `[]` downstream. -/
def workerJobsOf (cron : String) : List JobKey :=
  (WORKER_CRON_TO_JOBS cron).getD []

/-- `WEB_CRON_TO_JOBS[ev.cron] || []` -/
def webJobsOf (cron : String) : List JobKey :=
  (WEB_CRON_TO_JOBS cron).getD []

/-- JavaScript `s.trim()`: remove leading and trailing whitespace.
Defined by structural list recursion so it evaluates by reduction. -/
def trim (s : String) : String :=
  ⟨((s.data.dropWhile Char.isWhitespace).reverse.dropWhile Char.isWhitespace).reverse⟩

/-- Environment oracle for one tick: the fetch outcome and measured
duration of each (platform, job) invocation. -/
def Oracle : Type :=
  Platform → JobKey → FetchOutcome × Nat

/-- `const results = await Promise.all(allJobs)`: worker-platform results
first, then web-platform results, in mapping order. -/
def resultsOf (cron : String) (env : Env) (oracle : Oracle) : List JobResult :=
  (workerJobsOf cron).map
    (fun j => runJob .worker j env (oracle .worker j).1 (oracle .worker j).2) ++
  (webJobsOf cron).map
    (fun j => runJob .web j env (oracle .web j).1 (oracle .web j).2)

/-- Message of the aggregate error thrown at the end of a failed tick. -/
def aggregateError (cron : String) (results : List JobResult) : String :=
  "Some jobs failed for cron=" ++ cron ++ ": " ++
  toString (results.filter (fun r => !r.ok)).length ++ "/" ++
  toString results.length ++
  " (unexpected failures=" ++
  toString ((results.filter (fun r => !r.ok)).filter (fun r => shouldAlert (some r))).length ++
  ")"

/-- Observable behaviour of one `scheduled` tick. `logs` holds the
dispatcher's own diagnostic lines (the disabled-skip and no-jobs-mapped
lines); per-job log lines live in `runJob`'s result data. `raised` is the
aggregate error's message when the tick body throws, else `none`. -/
structure TickOutcome where
  logs : List String
  invocations : List (Platform × JobKey)
  results : List JobResult
  alerts : List String
  raised : Option String
deriving DecidableEq, Repr

/-- `async scheduled(ev, env, ctx)` — one cron tick, over the triggering
cron expression, the environment, the fetch oracle and the timestamp. -/
def scheduled (cron : String) (env : Env) (oracle : Oracle) (now : String) : TickOutcome :=
  if !gateOpen env then
    { logs := ["[" ++ now ++ "] [disabled] skipping cron=" ++ cron]
      invocations := [], results := [], alerts := [], raised := none }
  else if workerJobsOf cron = [] then
    { logs := ["[" ++ now ++ "] no jobs mapped for cron=\"" ++ cron ++ "\""]
      invocations := [], results := [], alerts := [], raised := none }
  else
    let results := resultsOf cron env oracle
    let webhook := (env.SLACK_WEBHOOK_URL.map trim).getD ""
    let alerts :=
      if webhook ≠ "" then
        ((results.filter (fun r => !r.ok)).filter (fun r => shouldAlert (some r))).map
          (fun r => slackTextForFailure cron r.job r.url r.status r.ms r.baseUrl now r.body)
      else []
    let raised :=
      if results.any (fun r => !r.ok) then some (aggregateError cron results)
      else none
    { logs := []
      invocations :=
        (workerJobsOf cron).map (fun j => (Platform.worker, j)) ++
        (webJobsOf cron).map (fun j => (Platform.web, j))
      results := results
      alerts := alerts
      raised := raised }

/-! ## Theorems -/

/-- C1: for every failed `JobResult`, `shouldAlert` returns `false` exactly
when the HTTP status is 503, or 409, or 524 with job `provideLiquidity`;
every other failing combination — including a result with no status at all
(transport failure) — alerts, as does a missing result. -/
theorem shouldAlert_suppression (r : JobResult) (_hfail : r.ok = false) :
    (shouldAlert (some r) = false ↔
      (r.status = some 503 ∨ r.status = some 409 ∨
        (r.status = some 524 ∧ r.job = JobKey.provideLiquidity))) ∧
    (r.status = none → shouldAlert (some r) = true) ∧
    shouldAlert none = true := by
  refine ⟨?_, ?_, rfl⟩
  · simp only [shouldAlert]
    split
    · next h => simp [h.elim (fun h => Or.inl h) (fun h => Or.inr (Or.inl h))]
    · next h =>
      split
      · next h2 => simp [Or.inr (Or.inr h2)]
      · next h2 =>
        simp only [not_or] at h
        simp [h.1, h.2, h2]
  · intro hnone
    simp [shouldAlert, hnone]

/-- Witness for C1: a failed 503 result is suppressed, a failed result
with no status (transport failure) is alerted. -/
theorem shouldAlert_suppression_witness :
    shouldAlert (some ⟨.shieldClean, false, some 503, 5, "u", "b", some "HTTP 503", some ""⟩) = false ∧
    shouldAlert (some ⟨.shieldClean, false, none, 5, "u", "b", some "boom", none⟩) = true := by
  constructor
  · exact (shouldAlert_suppression _ rfl).1.mpr (Or.inl rfl)
  · exact (shouldAlert_suppression _ rfl).2.1 rfl

/-- C3: `runJob` is a total function (it never raises) and classifies the
fetch outcome into the returned `JobResult`: a transport failure yields a
failed result with no status and the raw message, a non-success response
yields a failed result with the status, error `HTTP <status>` and the
truncated body, a success yields a successful result; a status is present
exactly when a response was obtained. -/
theorem runJob_classification (p : Platform) (j : JobKey) (env : Env)
    (oc : FetchOutcome) (ms : Nat) :
    ((runJob p j env oc ms).status.isSome = true ↔ ∃ res, oc = .response res) ∧
    (∀ msg, oc = .transportError msg →
      runJob p j env oc ms =
        { job := j, ok := false, status := none, ms := ms
          url := (fullUrl p env (JOB_ENDPOINT j)).url
          baseUrl := (fullUrl p env (JOB_ENDPOINT j)).baseUrl
          error := some msg, body := none }) ∧
    (∀ res, oc = .response res → res.ok = false →
      runJob p j env oc ms =
        { job := j, ok := false, status := some res.status, ms := ms
          url := (fullUrl p env (JOB_ENDPOINT j)).url
          baseUrl := (fullUrl p env (JOB_ENDPOINT j)).baseUrl
          error := some ("HTTP " ++ toString res.status)
          body := some (jsSlice (res.text.getD "") 1500) }) ∧
    (∀ res, oc = .response res → res.ok = true →
      runJob p j env oc ms =
        { job := j, ok := true, status := some res.status, ms := ms
          url := (fullUrl p env (JOB_ENDPOINT j)).url
          baseUrl := (fullUrl p env (JOB_ENDPOINT j)).baseUrl
          error := none, body := none }) := by
  refine ⟨?_, ?_, ?_, ?_⟩
  · cases oc with
    | response res =>
      constructor
      · intro _; exact ⟨res, rfl⟩
      · intro _
        by_cases h : res.ok <;> simp [runJob, h]
    | transportError msg =>
      simp [runJob]
  · rintro msg rfl
    rfl
  · rintro res rfl hok
    simp [runJob, hok]
  · rintro res rfl hok
    simp [runJob, hok]

/-- Witness for C3: the three outcome classes at concrete inputs. -/
theorem runJob_classification_witness :
    (runJob .worker .healthz
      ⟨"https://w", "https://x", "k", some "true", none⟩
      (.transportError "connect timeout") 7).error = some "connect timeout" ∧
    (runJob .worker .shieldClean
      ⟨"https://w", "https://x", "k", some "true", none⟩
      (.response ⟨503, some "busy"⟩) 7).error = some "HTTP 503" ∧
    (runJob .worker .shieldClean
      ⟨"https://w", "https://x", "k", some "true", none⟩
      (.response ⟨200, some ""⟩) 7).ok = true := by
  refine ⟨?_, ?_, ?_⟩
  · rw [(runJob_classification .worker .healthz
      ⟨"https://w", "https://x", "k", some "true", none⟩
      (.transportError "connect timeout") 7).2.1 "connect timeout" rfl]
  · rw [(runJob_classification .worker .shieldClean
      ⟨"https://w", "https://x", "k", some "true", none⟩
      (.response ⟨503, some "busy"⟩) 7).2.2.1 ⟨503, some "busy"⟩ rfl (by decide)]
    rfl
  · rw [(runJob_classification .worker .shieldClean
      ⟨"https://w", "https://x", "k", some "true", none⟩
      (.response ⟨200, some ""⟩) 7).2.2.2 ⟨200, some ""⟩ rfl (by decide)]

/-- C6: on an HTTP failure the body recorded in the failed result is the
response body truncated to at most 1500 characters: longer bodies are cut
to exactly 1500 (a prefix of the original), shorter ones pass through
unchanged. -/
theorem runJob_body_truncation (p : Platform) (j : JobKey) (env : Env)
    (res : HttpResponse) (ms : Nat) (hfail : res.ok = false) :
    (runJob p j env (.response res) ms).body = some (jsSlice (res.text.getD "") 1500) ∧
    (∀ s : String, (jsSlice s 1500).length = min 1500 s.length) ∧
    (∀ s : String, s.length ≤ 1500 → jsSlice s 1500 = s) ∧
    (∀ s : String, 1500 < s.length →
      (jsSlice s 1500).length = 1500 ∧ ∃ t : String, s = jsSlice s 1500 ++ t) := by
  refine ⟨?_, ?_, ?_, ?_⟩
  · simp [runJob, hfail]
  · intro s
    show (s.data.take 1500).length = min 1500 s.data.length
    exact List.length_take 1500 s.data
  · intro s h
    obtain ⟨l⟩ := s
    show String.mk (l.take 1500) = String.mk l
    rw [List.take_of_length_le h]
  · intro s h
    constructor
    · show (s.data.take 1500).length = 1500
      rw [List.length_take]
      exact min_eq_left (le_of_lt h)
    · refine ⟨⟨s.data.drop 1500⟩, ?_⟩
      show s = String.mk (s.data.take 1500 ++ s.data.drop 1500)
      rw [List.take_append_drop]

/-- Witness for C6: an 1800-character body is recorded as its first 1500
characters. -/
theorem runJob_body_truncation_witness :
    (runJob .worker .shieldClean ⟨"https://w", "https://x", "k", some "true", none⟩
      (.response ⟨500, some ⟨List.replicate 1800 'a'⟩⟩) 7).body =
      some (jsSlice ⟨List.replicate 1800 'a'⟩ 1500) ∧
    (jsSlice (⟨List.replicate 1800 'a'⟩ : String) 1500).length = 1500 := by
  have h := runJob_body_truncation .worker .shieldClean
    ⟨"https://w", "https://x", "k", some "true", none⟩
    ⟨500, some ⟨List.replicate 1800 'a'⟩⟩ 7 (by decide)
  refine ⟨h.1, ?_⟩
  have hlen : (1500 : Nat) < (⟨List.replicate 1800 'a'⟩ : String).length := by
    show (1500 : Nat) < (List.replicate 1800 'a').length
    rw [List.length_replicate]
    norm_num
  exact (h.2.2.2 ⟨List.replicate 1800 'a'⟩ hlen).1

/-- C7: the request of every (backend, job) invocation targets the
backend's base URL with trailing slashes stripped concatenated with the
job's relative path, uses the job's configured method, and attaches the
Internal-Authorization header with the shared secret iff the path starts
with /api/internal/ — which holds for every job except healthz. -/
theorem jobRequest_shape (p : Platform) (env : Env) (j : JobKey) :
    (jobRequest p env j).url =
      stripTrailingSlashes (baseUrlOf p env) ++ (JOB_ENDPOINT j).path ∧
    (jobRequest p env j).method = (JOB_ENDPOINT j).method ∧
    ((jobRequest p env j).internalAuth = some env.INTERNAL_API_KEY ↔
      startsWith (JOB_ENDPOINT j).path "/api/internal/" = true) ∧
    (jobRequest p env j).internalAuth =
      (if j = .healthz then none else some env.INTERNAL_API_KEY) ∧
    (∀ oc ms, (runJob p j env oc ms).url = (jobRequest p env j).url ∧
      (runJob p j env oc ms).baseUrl = baseUrlOf p env) := by
  refine ⟨rfl, rfl, ?_, ?_, ?_⟩
  · by_cases h : startsWith (JOB_ENDPOINT j).path "/api/internal/" = true
    · simp [jobRequest, h]
    · simp [jobRequest, h]
  · cases j <;> rfl
  · intro oc ms
    cases oc with
    | response res =>
      by_cases h : res.ok <;>
        simp [runJob, jobRequest, fullUrl, baseUrlOf, h]
    | transportError m =>
      exact ⟨rfl, rfl⟩

/-- C8: the fetch handler answers 200 "ok" exactly for GET /, answers 404
"not found" for every other path/method combination, and invokes no job. -/
theorem fetchHandler_spec (pathname method : String) :
    (fetchHandler pathname method = ⟨200, "ok", []⟩ ↔
      (pathname = "/" ∧ method = "GET")) ∧
    (fetchHandler pathname method = ⟨200, "ok", []⟩ ∨
      fetchHandler pathname method = ⟨404, "not found", []⟩) ∧
    (fetchHandler pathname method).invocations = [] := by
  unfold fetchHandler
  split
  · next h => simp [h]
  · next h => simp [h]

/-- Helper: with the gate closed, a tick is exactly the skip outcome. -/
theorem scheduled_skip_of_gate_closed (cron : String) (env : Env) (oracle : Oracle)
    (now : String) (hdis : gateOpen env = false) :
    scheduled cron env oracle now =
      { logs := ["[" ++ now ++ "] [disabled] skipping cron=" ++ cron]
        invocations := [], results := [], alerts := [], raised := none } := by
  simp [scheduled, hdis]

/-- Helper: in the shipped schedule tables, whenever the web backend has
due jobs for an expression the worker backend does as well. -/
theorem workerJobs_ne_nil_of_webJobs_ne_nil (cron : String)
    (h : webJobsOf cron ≠ []) : workerJobsOf cron ≠ [] := by
  by_cases hc : cron = "*/1 * * * *"
  · subst hc
    decide
  · exfalso
    apply h
    by_cases h1 : cron = "0,30 12-23 * * *"
    · subst h1; rfl
    by_cases h2 : cron = "15 13-15 * * *"
    · subst h2; rfl
    by_cases h4 : cron = "0 * * * *"
    · subst h4; rfl
    by_cases h5 : cron = "*/15 * * * *"
    · subst h5; rfl
    simp [webJobsOf, WEB_CRON_TO_JOBS, h1, h2, hc, h4, h5]

/-- C5: on a tick with the feature gate disabled the handler returns
immediately after logging a skip notice tagged with the cron expression:
zero invocations, zero alerts, nothing raised, whatever the mapping. -/
theorem scheduled_gate_disabled (cron : String) (env : Env) (oracle : Oracle)
    (now : String) (hdis : gateOpen env = false) :
    scheduled cron env oracle now =
      { logs := ["[" ++ now ++ "] [disabled] skipping cron=" ++ cron]
        invocations := [], results := [], alerts := [], raised := none } :=
  scheduled_skip_of_gate_closed cron env oracle now hdis

/-- Witness for C5: a disabled tick at a mapped cron is the skip outcome. -/
theorem scheduled_gate_disabled_witness :
    scheduled "*/1 * * * *" ⟨"b", "w", "k", some "false", none⟩
      (fun _ _ => (.transportError "x", 0)) "T" =
      ⟨["[T] [disabled] skipping cron=*/1 * * * *"], [], [], [], none⟩ := by
  rw [scheduled_gate_disabled "*/1 * * * *" ⟨"b", "w", "k", some "false", none⟩
    (fun _ _ => (.transportError "x", 0)) "T" (by decide)]
  rfl

/-- C9: the feature gate is an exact string comparison: it is open iff
ENABLED is exactly the string "true"; any other value — different casing,
"1", trailing whitespace — or an unset variable (defaulting to "false")
skips the tick entirely. -/
theorem gate_exact_string (env : Env) :
    (gateOpen env = true ↔ env.ENABLED = some "true") ∧
    (∀ (cron : String) (oracle : Oracle) (now : String),
      env.ENABLED ≠ some "true" →
      scheduled cron env oracle now =
        { logs := ["[" ++ now ++ "] [disabled] skipping cron=" ++ cron]
          invocations := [], results := [], alerts := [], raised := none }) := by
  have hiff : gateOpen env = true ↔ env.ENABLED = some "true" := by
    cases henv : env.ENABLED with
    | none => simp [gateOpen, henv]
    | some s => simp [gateOpen, henv]
  refine ⟨hiff, ?_⟩
  intro cron oracle now hne
  have hclosed : gateOpen env = false := by
    cases hb : gateOpen env with
    | false => rfl
    | true => exact absurd (hiff.mp hb) hne
  exact scheduled_skip_of_gate_closed cron env oracle now hclosed

/-- Witness for C9: "TRUE", "True", "1", "true " and unset all close the
gate, exactly "true" opens it, and a "TRUE" tick performs no invocation. -/
theorem gate_exact_string_witness :
    gateOpen ⟨"b", "w", "k", some "TRUE", none⟩ = false ∧
    gateOpen ⟨"b", "w", "k", some "True", none⟩ = false ∧
    gateOpen ⟨"b", "w", "k", some "1", none⟩ = false ∧
    gateOpen ⟨"b", "w", "k", some "true ", none⟩ = false ∧
    gateOpen ⟨"b", "w", "k", none, none⟩ = false ∧
    gateOpen ⟨"b", "w", "k", some "true", none⟩ = true ∧
    (scheduled "*/1 * * * *" ⟨"b", "w", "k", some "TRUE", none⟩
      (fun _ _ => (.transportError "x", 0)) "T").invocations = [] := by
  refine ⟨?_, ?_, ?_, ?_, ?_, ?_, ?_⟩
  · cases hb : gateOpen ⟨"b", "w", "k", some "TRUE", none⟩ with
    | false => rfl
    | true => exact absurd ((gate_exact_string _).1.mp hb) (by decide)
  · cases hb : gateOpen ⟨"b", "w", "k", some "True", none⟩ with
    | false => rfl
    | true => exact absurd ((gate_exact_string _).1.mp hb) (by decide)
  · cases hb : gateOpen ⟨"b", "w", "k", some "1", none⟩ with
    | false => rfl
    | true => exact absurd ((gate_exact_string _).1.mp hb) (by decide)
  · cases hb : gateOpen ⟨"b", "w", "k", some "true ", none⟩ with
    | false => rfl
    | true => exact absurd ((gate_exact_string _).1.mp hb) (by decide)
  · cases hb : gateOpen ⟨"b", "w", "k", none, none⟩ with
    | false => rfl
    | true => exact absurd ((gate_exact_string _).1.mp hb) (by decide)
  · exact (gate_exact_string _).1.mpr rfl
  · rw [(gate_exact_string _).2 "*/1 * * * *"
      (fun _ _ => (.transportError "x", 0)) "T" (by decide)]

/-- C4: with the gate open, if no backend has jobs for the expression the
tick logs the no-jobs diagnostic and returns with no invocation and no
error; whenever at least one backend has due jobs, the tick proceeds with
the union of all backends' due jobs, each tagged with its backend. -/
theorem scheduled_resolution (cron : String) (env : Env) (oracle : Oracle)
    (now : String) (hen : env.ENABLED = some "true") :
    (workerJobsOf cron = [] ∧ webJobsOf cron = [] →
      scheduled cron env oracle now =
        { logs := ["[" ++ now ++ "] no jobs mapped for cron=\"" ++ cron ++ "\""]
          invocations := [], results := [], alerts := [], raised := none }) ∧
    (workerJobsOf cron ≠ [] ∨ webJobsOf cron ≠ [] →
      (scheduled cron env oracle now).invocations =
        (workerJobsOf cron).map (fun j => (Platform.worker, j)) ++
        (webJobsOf cron).map (fun j => (Platform.web, j))) := by
  have hg : gateOpen env = true := by simp [gateOpen, hen]
  constructor
  · rintro ⟨h1, _h2⟩
    simp [scheduled, hg, h1]
  · intro h
    have hw : workerJobsOf cron ≠ [] := by
      rcases h with h | h
      · exact h
      · exact workerJobs_ne_nil_of_webJobs_ne_nil cron h
    simp [scheduled, hg, hw]

/-- Witness for C4: an unmapped expression yields the diagnostic outcome
with zero invocations; the every-minute expression invokes the union of
the worker and web backends' due jobs. -/
theorem scheduled_resolution_witness :
    scheduled "unmapped" ⟨"b", "w", "k", some "true", none⟩
      (fun _ _ => (.transportError "x", 0)) "T" =
      ⟨["[T] no jobs mapped for cron=\"unmapped\""], [], [], [], none⟩ ∧
    (scheduled "*/1 * * * *" ⟨"b", "w", "k", some "true", none⟩
      (fun _ _ => (.transportError "x", 0)) "T").invocations =
      [(Platform.worker, .syncChroniclesUpdates), (Platform.worker, .syncUserStakes),
        (Platform.worker, .healthz), (Platform.web, .healthz)] := by
  constructor
  · rw [(scheduled_resolution "unmapped" ⟨"b", "w", "k", some "true", none⟩
      (fun _ _ => (.transportError "x", 0)) "T" rfl).1 ⟨by decide, by decide⟩]
    rfl
  · rw [(scheduled_resolution "*/1 * * * *" ⟨"b", "w", "k", some "true", none⟩
      (fun _ _ => (.transportError "x", 0)) "T" rfl).2 (Or.inl (by decide))]
    rfl

/-- C2: a tick (gate open, jobs mapped) raises an aggregate error iff at
least one JobResult failed; the message reports the failed count over the
total count and the count of failed results deemed alert-worthy, with
suppressed failures still included in the failed count. -/
theorem scheduled_aggregate_raise (cron : String) (env : Env) (oracle : Oracle)
    (now : String) (hen : env.ENABLED = some "true")
    (hjobs : workerJobsOf cron ≠ []) :
    ((scheduled cron env oracle now).raised.isSome = true ↔
      ∃ r ∈ resultsOf cron env oracle, r.ok = false) ∧
    (scheduled cron env oracle now).raised =
      (if 0 < (resultsOf cron env oracle).countP (fun r => !r.ok) then
        some ("Some jobs failed for cron=" ++ cron ++ ": " ++
          toString ((resultsOf cron env oracle).countP (fun r => !r.ok)) ++ "/" ++
          toString (resultsOf cron env oracle).length ++
          " (unexpected failures=" ++
          toString ((resultsOf cron env oracle).countP
            (fun r => shouldAlert (some r) && !r.ok)) ++ ")")
      else none) := by
  have hg : gateOpen env = true := by simp [gateOpen, hen]
  have hmain : (scheduled cron env oracle now).raised =
      (if (resultsOf cron env oracle).any (fun r => !r.ok) then
        some (aggregateError cron (resultsOf cron env oracle)) else none) := by
    simp [scheduled, hg, hjobs]
  rw [hmain]
  by_cases hany : (resultsOf cron env oracle).any (fun r => !r.ok) = true
  · have hpos : 0 < (resultsOf cron env oracle).countP (fun r => !r.ok) := by
      rw [List.countP_pos_iff]
      exact List.any_eq_true.mp hany
    rw [if_pos hany, if_pos hpos]
    constructor
    · constructor
      · intro _
        obtain ⟨r, hm, hr⟩ := List.any_eq_true.mp hany
        exact ⟨r, hm, by simpa using hr⟩
      · intro _
        rfl
    · simp [aggregateError, List.countP_eq_length_filter, List.filter_filter]
  · have hnpos : ¬ 0 < (resultsOf cron env oracle).countP (fun r => !r.ok) := by
      rw [List.countP_pos_iff]
      intro hex
      exact hany (List.any_eq_true.mpr hex)
    rw [if_neg hany, if_neg hnpos]
    constructor
    · constructor
      · intro habs
        exact absurd habs (by simp)
      · rintro ⟨r, hm, hr⟩
        exact absurd (List.any_eq_true.mpr ⟨r, hm, by simpa using hr⟩) hany
    · rfl

/-- Witness for C2: a tick whose two jobs both answer HTTP 503 raises
"2/2 (unexpected failures=0)" — both suppressed failures counted. -/
theorem scheduled_aggregate_raise_witness :
    (scheduled "*/15 * * * *"
      ⟨"https://w", "https://x", "k", some "true", some "https://hooks.example"⟩
      (fun _ _ => (.response ⟨503, some "unavailable"⟩, 3)) "T").raised =
      some "Some jobs failed for cron=*/15 * * * *: 2/2 (unexpected failures=0)" := by
  rw [(scheduled_aggregate_raise "*/15 * * * *"
    ⟨"https://w", "https://x", "k", some "true", some "https://hooks.example"⟩
    (fun _ _ => (.response ⟨503, some "unavailable"⟩, 3)) "T" rfl (by decide)).2]
  rfl

/-- Helper: the webhook configuration influences neither the results nor
the raised aggregate error of a tick. -/
theorem scheduled_webhook_independent (cron : String) (env : Env)
    (w : Option String) (oracle : Oracle) (now : String) :
    ((scheduled cron { env with SLACK_WEBHOOK_URL := w } oracle now).results =
      (scheduled cron env oracle now).results) ∧
    ((scheduled cron { env with SLACK_WEBHOOK_URL := w } oracle now).raised =
      (scheduled cron env oracle now).raised) := by
  have hg : gateOpen { env with SLACK_WEBHOOK_URL := w } = gateOpen env := rfl
  have hres : resultsOf cron { env with SLACK_WEBHOOK_URL := w } oracle =
      resultsOf cron env oracle := rfl
  cases hb : gateOpen env with
  | false => simp [scheduled, hg, hb]
  | true =>
    by_cases hj : workerJobsOf cron = []
    · simp [scheduled, hg, hb, hj]
    · simp [scheduled, hg, hb, hj, hres]

/-- C10: when SLACK_WEBHOOK_URL is unset, empty, or whitespace-only (it
is trimmed before the check), no alert delivery is attempted, while the
results — hence the failed and unexpected-failure counts — and the raised
aggregate error are identical to a run with any configured webhook. -/
theorem scheduled_no_webhook (cron : String) (env : Env) (oracle : Oracle)
    (now : String)
    (hw : (env.SLACK_WEBHOOK_URL.map trim).getD "" = "") :
    (scheduled cron env oracle now).alerts = [] ∧
    (∀ w : Option String,
      (scheduled cron { env with SLACK_WEBHOOK_URL := w } oracle now).results =
        (scheduled cron env oracle now).results ∧
      (scheduled cron { env with SLACK_WEBHOOK_URL := w } oracle now).raised =
        (scheduled cron env oracle now).raised) := by
  constructor
  · cases hb : gateOpen env with
    | false => simp [scheduled, hb]
    | true =>
      by_cases hj : workerJobsOf cron = []
      · simp [scheduled, hb, hj]
      · simp [scheduled, hb, hj, hw]
  · intro w
    exact scheduled_webhook_independent cron env w oracle now

/-- Witness for C10: a whitespace-only webhook sends no alert even when
both jobs fail. -/
theorem scheduled_no_webhook_witness :
    (scheduled "*/15 * * * *" ⟨"b", "w", "k", some "true", some "   "⟩
      (fun _ _ => (.response ⟨500, some "x"⟩, 3)) "T").alerts = [] := by
  exact (scheduled_no_webhook "*/15 * * * *" ⟨"b", "w", "k", some "true", some "   "⟩
    (fun _ _ => (.response ⟨500, some "x"⟩, 3)) "T" (by decide)).1

end DcCron
